import Mathlib

/-!
Verification development for the Myndra language front end and evaluator:
lexer (src/unnamed/part_001, namespace myndra — the copy linked with the
parser and interpreter; the byte-identical duplicate under
src/src/lexer/lexer.cpp differs only in that it leaves most lexemes empty),
parser (src/src/parser/parser.cpp), and tree-walking interpreter
(src/src/interpreter/interpreter.h, which holds both the header and the
implementation).

Modelling conventions:
* C++ `int64_t` is modelled as `Int` (no claim under study exercises
  64-bit wrap-around).
* C++ `double` is modelled as `ℚ`: every float reaching the claims under
  study originates from a short decimal literal, and the claims are about
  which type pairings and which zero divisors raise failures, not about
  rounding.  The runtime value type therefore has no NaN or infinity,
  mirroring the spec's closed sum type.
* C++ exceptions (`throw std::runtime_error`) become `Except.error` with
  the exact message string; the interpreter state is threaded explicitly
  so that partial side effects survive a failure, as they do in C++.
* Unbounded C++ `while` loops become fuel-indexed recursion; fuel
  exhaustion is a distinguished error.  Every concrete run below uses
  visibly sufficient fuel, and each universal statement quantifies over
  the fuel (in the shape `fuel + k`) so it covers all sufficient fuels.
-/

namespace Myndra

/-- `RuntimeValue` mirrors `std::variant<int64_t, double, std::string, bool>`
(interpreter.h line 14, also the `literal` field of `Token` in token.h).
`==` on the variant compares alternative index first, then payload, which is
exactly derived structural equality here. -/
inductive RuntimeValue where
  | int (i : Int)
  | float (q : ℚ)
  | str (s : String)
  | bool (b : Bool)
deriving DecidableEq

namespace Interp

open RuntimeValue

/-- Mirrors `Interpreter::isTruthy` (interpreter.h lines 457-471). -/
def isTruthy : RuntimeValue → Bool
  | .bool b => b
  | .int i => i != 0
  | .float q => q != 0
  | .str s => !s.isEmpty

/-- Fixed-point rendering of a `double` with six digits after the decimal
point, as `std::to_string(double)` produces (e.g. `3.14 ↦ "3.140000"`).
`n` is `⌊|q| * 10^6 + 1/2⌋` computed on the numerator and denominator;
rounding of values that are not exactly representable in six decimals is
abstracted as round-half-up, and every literal in this development is
exact. -/
def doubleToString (q : ℚ) : String :=
  let sign := if q.num < 0 then "-" else ""
  let n := (q.num.natAbs * 2000000 + q.den) / (2 * q.den)
  let ip := n / 1000000
  let fp := n % 1000000
  let fs := toString fp
  sign ++ toString ip ++ "." ++ String.mk (List.replicate (6 - fs.length) '0') ++ fs

/-- Mirrors `Interpreter::valueToString` (interpreter.h lines 441-455). -/
def valueToString : RuntimeValue → String
  | .int i => toString i
  | .float q => doubleToString q
  | .str s => s
  | .bool b => if b then "true" else "false"

end Interp

/-- Binary operators, mirroring `enum class BinaryOperator` (ast.h). -/
inductive BinaryOperator where
  | add | sub | mul | div | mod
  | eq | ne | lt | le | gt | ge
  | and | or
  | assign
deriving DecidableEq

/-- Unary operators, mirroring `enum class UnaryOperator` (ast.h). -/
inductive UnaryOperator where
  | not | neg | plus
deriving DecidableEq

/-- Expression nodes, mirroring the `Expression` subclasses in ast.h.
Children are owned subtrees, as in the C++ (`unique_ptr`, no sharing). -/
inductive Expr where
  | intLit (v : Int)
  | floatLit (v : ℚ)
  | strLit (s : String)
  | boolLit (b : Bool)
  | ident (name : String)
  | binary (left : Expr) (op : BinaryOperator) (right : Expr)
  | unary (op : UnaryOperator) (operand : Expr)
  | call (fn : Expr) (args : List Expr)
  | arrayAccess (arr idx : Expr)
  | memberAccess (obj : Expr) (member : String)
  | contextCond (e : Expr) (ctx : String)

/-- Statement nodes, mirroring the `Statement` subclasses in ast.h.
`Program` is represented by its top-level statement list. -/
inductive Stmt where
  | exprStmt (e : Expr)
  | varDecl (name : String) (type : String) (initializer : Option Expr) (isMut : Bool)
  | block (stmts : List Stmt)
  | funcDef (name : String) (params : List (String × String)) (retType : String)
      (body : List Stmt)
  | ret (value : Option Expr)
  | ifStmt (cond : Expr) (thenBranch : Stmt) (elseBranch : Option Stmt)
  | whileStmt (cond : Expr) (body : Stmt)
  | forStmt (var : String) (start stop : Expr) (body : Stmt)

namespace Interp

/-- One `Environment`'s binding table (`std::unordered_map<std::string,
RuntimeValue>`), as an association list with unique keys by construction. -/
abbrev Frame := List (String × RuntimeValue)

/-- `Environment::define`: insert or overwrite in this frame only. -/
def frameDefine : Frame → String → RuntimeValue → Frame
  | [], name, v => [(name, v)]
  | (k, w) :: rest, name, v =>
      if k = name then (k, v) :: rest else (k, w) :: frameDefine rest name v

def frameGet : Frame → String → Option RuntimeValue
  | [], _ => none
  | (k, w) :: rest, name => if k = name then some w else frameGet rest name

/-- The `Environment` parent chain as a stack of frames, innermost first.
The block statement is the only code that ever changes the current
environment pointer, and `Environment::assign` (the only operation that
could mutate a non-current frame) is unreachable — the evaluator has no
`BinaryOperator::Assign` case and throws before calling it — so restoring
the saved parent pointer coincides with restoring the saved stack. -/
abbrev Env := List Frame

/-- `Environment::get` (interpreter.h lines 94-105): walk the chain
outward; a miss at the root is the fatal undefined-variable failure. -/
def envGet : Env → String → Except String RuntimeValue
  | [], name => .error ("Undefined variable '" ++ name ++ "'")
  | f :: rest, name =>
      match frameGet f name with
      | some v => .ok v
      | none => envGet rest name

/-- `Environment::define` on the current (innermost) environment. -/
def envDefine : Env → String → RuntimeValue → Env
  | [], name, v => [frameDefine [] name v]
  | f :: rest, name, v => frameDefine f name v :: rest

/-- Interpreter-visible machine state: the current environment chain, the
text written to standard output so far, and the lines remaining on
standard input. -/
structure InterpState where
  env : Env
  output : String
  stdin : List String
deriving Inhabited

/-- The state of a fresh `Interpreter` (root environment, no output),
with a given standard-input script. -/
def initState (stdin : List String) : InterpState :=
  { env := [([] : Frame)], output := "", stdin := stdin }

/-- The pure arithmetic/comparison/logic core of
`Interpreter::visit(BinaryExpression&)` (interpreter.h lines 161-266),
applied after both operands have been evaluated.  `mod` and `assign` fall
through to the `default:` case in the C++ switch. -/
def applyBinary (op : BinaryOperator) (left right : RuntimeValue) :
    Except String RuntimeValue :=
  match op with
  | .add =>
      match left, right with
      | .int a, .int b => .ok (.int (a + b))
      | .float a, .float b => .ok (.float (a + b))
      | .str a, .str b => .ok (.str (a ++ b))
      | _, _ => .error "Invalid operands for addition"
  | .sub =>
      match left, right with
      | .int a, .int b => .ok (.int (a - b))
      | .float a, .float b => .ok (.float (a - b))
      | _, _ => .error "Invalid operands for subtraction"
  | .mul =>
      match left, right with
      | .int a, .int b => .ok (.int (a * b))
      | .float a, .float b => .ok (.float (a * b))
      | _, _ => .error "Invalid operands for multiplication"
  | .div =>
      match left, right with
      | .int a, .int b =>
          if b = 0 then .error "Division by zero"
          else .ok (.int (Int.tdiv a b))
      | .float a, .float b =>
          if b = 0 then .error "Division by zero"
          else .ok (.float (a / b))
      | _, _ => .error "Invalid operands for division"
  | .eq => .ok (.bool (left = right))
  | .ne => .ok (.bool (left ≠ right))
  | .lt =>
      match left, right with
      | .int a, .int b => .ok (.bool (a < b))
      | .float a, .float b => .ok (.bool (a < b))
      | _, _ => .error "Invalid operands for comparison"
  | .gt =>
      match left, right with
      | .int a, .int b => .ok (.bool (a > b))
      | .float a, .float b => .ok (.bool (a > b))
      | _, _ => .error "Invalid operands for comparison"
  | .le =>
      match left, right with
      | .int a, .int b => .ok (.bool (a ≤ b))
      | .float a, .float b => .ok (.bool (a ≤ b))
      | _, _ => .error "Invalid operands for comparison"
  | .ge =>
      match left, right with
      | .int a, .int b => .ok (.bool (a ≥ b))
      | .float a, .float b => .ok (.bool (a ≥ b))
      | _, _ => .error "Invalid operands for comparison"
  | .and => .ok (.bool (isTruthy left && isTruthy right))
  | .or => .ok (.bool (isTruthy left || isTruthy right))
  | .mod => .error "Unsupported binary operator"
  | .assign => .error "Unsupported binary operator"

/-- `Interpreter::visit(UnaryExpression&)` after operand evaluation
(interpreter.h lines 269-291); `UnaryOperator::Plus` falls through to the
`default:` case. -/
def applyUnary (op : UnaryOperator) (operand : RuntimeValue) :
    Except String RuntimeValue :=
  match op with
  | .neg =>
      match operand with
      | .int a => .ok (.int (-a))
      | .float a => .ok (.float (-a))
      | _ => .error "Invalid operand for negation"
  | .not => .ok (.bool (!isTruthy operand))
  | .plus => .error "Unsupported unary operator"

/-- `Interpreter::callPrint` (interpreter.h lines 478-485): arguments
space-separated, then a newline, result integer 0. -/
def callPrint (st : InterpState) (args : List RuntimeValue) :
    InterpState × Except String RuntimeValue :=
  ({ st with
      output := st.output ++ String.intercalate " " (args.map valueToString) ++ "\n" },
    .ok (.int 0))

/-- `Interpreter::callInput` (interpreter.h lines 487-496): optional prompt
written without a newline, then one line read from standard input
(`std::getline` on exhausted input leaves the string empty). -/
def callInput (st : InterpState) (args : List RuntimeValue) :
    InterpState × Except String RuntimeValue :=
  let st1 :=
    match args with
    | [] => st
    | prompt :: _ => { st with output := st.output ++ valueToString prompt }
  match st1.stdin with
  | [] => (st1, .ok (.str ""))
  | line :: rest => ({ st1 with stdin := rest }, .ok (.str line))

/-- `Interpreter::callLength` (interpreter.h lines 498-509). -/
def callLength (args : List RuntimeValue) : Except String RuntimeValue :=
  if args.length ≠ 1 then .error "length() expects exactly 1 argument"
  else
    match args with
    | [.str s] => .ok (.int (s.length : Int))
    | _ => .error "length() can only be called on strings"

/-- `Interpreter::callSubstring` (interpreter.h lines 511-542), with the
C++ check order preserved: arity, first-argument type, second-argument
type, start-range check (early empty-string return), and only then the
third-argument type check.  `std::string::substr(pos)` is `String.drop`,
`substr(pos, len)` is `drop` then `take`. -/
def callSubstring (args : List RuntimeValue) : Except String RuntimeValue :=
  if args.length < 2 ∨ 3 < args.length then
    .error "substring() expects 2 or 3 arguments: substring(string, start, [length])"
  else
    match args with
    | .str s :: .int start :: rest =>
        if start < 0 ∨ (s.length : Int) ≤ start then .ok (.str "")
        else
          match rest with
          | [] => .ok (.str (s.drop start.toNat))
          | .int len :: _ =>
              if len < 0 then .ok (.str "")
              else .ok (.str ((s.drop start.toNat).take len.toNat))
          | _ :: _ => .error "substring() third argument must be an integer"
    | .str _ :: _ => .error "substring() second argument must be an integer"
    | _ => .error "substring() first argument must be a string"

/-- Error reported when the fuel of a modelled unbounded loop or recursion
runs out; no C++ execution path corresponds to it, and every statement
proved below either quantifies over all sufficient fuels or uses a
concrete, visibly sufficient fuel. -/
def fuelError : String := "interpreter fuel exhausted"

mutual

/-- `Interpreter` expression dispatch: the `visit` overloads for
expression nodes (interpreter.h lines 131-363), with `lastValue_`
returned explicitly and `environment_`/`std::cout`/`std::cin` threaded as
`InterpState`.  A thrown `std::runtime_error` is an `Except.error` paired
with the state at the throw point. -/
def evalExpr : Nat → Expr → InterpState → InterpState × Except String RuntimeValue
  | 0, _, st => (st, .error fuelError)
  | _ + 1, .intLit v, st => (st, .ok (.int v))
  | _ + 1, .floatLit v, st => (st, .ok (.float v))
  | _ + 1, .strLit s, st => (st, .ok (.str s))
  | _ + 1, .boolLit b, st => (st, .ok (.bool b))
  | _ + 1, .ident name, st => (st, envGet st.env name)
  | fuel + 1, .binary l op r, st =>
      match evalExpr fuel l st with
      | (st1, .error m) => (st1, .error m)
      | (st1, .ok lv) =>
          match evalExpr fuel r st1 with
          | (st2, .error m) => (st2, .error m)
          | (st2, .ok rv) => (st2, applyBinary op lv rv)
  | fuel + 1, .unary op e, st =>
      match evalExpr fuel e st with
      | (st1, .error m) => (st1, .error m)
      | (st1, .ok v) => (st1, applyUnary op v)
  | fuel + 1, .call fn args, st =>
      match fn with
      | .ident name =>
          if name = "print" then
            match evalArgs fuel args st with
            | (st1, .error m) => (st1, .error m)
            | (st1, .ok vs) => callPrint st1 vs
          else if name = "input" then
            match evalArgs fuel args st with
            | (st1, .error m) => (st1, .error m)
            | (st1, .ok vs) => callInput st1 vs
          else if name = "length" then
            match evalArgs fuel args st with
            | (st1, .error m) => (st1, .error m)
            | (st1, .ok vs) => (st1, callLength vs)
          else if name = "substring" then
            match evalArgs fuel args st with
            | (st1, .error m) => (st1, .error m)
            | (st1, .ok vs) => (st1, callSubstring vs)
          else
            (st, .error ("Function '" ++ name ++ "' is not defined"))
      | _ => (st, .error "Function calls with complex expressions not yet supported")
  | _ + 1, .arrayAccess _ _, st => (st, .error "Array access not yet implemented")
  | _ + 1, .memberAccess _ _, st => (st, .error "Member access not yet implemented")
  | _ + 1, .contextCond _ _, st => (st, .error "Context conditionals not yet implemented")

/-- Sequential left-to-right evaluation of a call's argument list (the
`for (auto& arg : node.arguments)` loops in `visit(FunctionCall&)`); a
failing argument aborts the call. -/
def evalArgs : Nat → List Expr → InterpState → InterpState × Except String (List RuntimeValue)
  | 0, _, st => (st, .error fuelError)
  | _ + 1, [], st => (st, .ok [])
  | fuel + 1, e :: rest, st =>
      match evalExpr fuel e st with
      | (st1, .error m) => (st1, .error m)
      | (st1, .ok v) =>
          match evalArgs fuel rest st1 with
          | (st2, .error m) => (st2, .error m)
          | (st2, .ok vs) => (st2, .ok (v :: vs))

end

mutual

/-- `Interpreter` statement dispatch: the `visit` overloads for statement
nodes (interpreter.h lines 365-433). -/
def execStmt : Nat → Stmt → InterpState → InterpState × Except String Unit
  | 0, _, st => (st, .error fuelError)
  | fuel + 1, .exprStmt e, st =>
      match evalExpr fuel e st with
      | (st1, .error m) => (st1, .error m)
      | (st1, .ok _) => (st1, .ok ())
  | fuel + 1, .varDecl name _ initializer _, st =>
      match initializer with
      | some e =>
          match evalExpr fuel e st with
          | (st1, .error m) => (st1, .error m)
          | (st1, .ok v) => ({ st1 with env := envDefine st1.env name v }, .ok ())
      | none => ({ st with env := envDefine st.env name (.int 0) }, .ok ())
  | fuel + 1, .block stmts, st =>
      -- visit(Block&), interpreter.h lines 382-397: push a child
      -- environment, run the children, and restore the saved environment
      -- on the normal exit and in the catch-all handler alike.
      let previous := st.env
      match execStmts fuel stmts { st with env := ([] : Frame) :: st.env } with
      | (st2, .error m) => ({ st2 with env := previous }, .error m)
      | (st2, .ok _) => ({ st2 with env := previous }, .ok ())
  | _ + 1, .funcDef name _ _ _, st =>
      ({ st with output := st.output ++ "Function '" ++ name ++ "' defined (not yet executable)\n" },
        .ok ())
  | _ + 1, .ret _, st => (st, .error "Return statements not yet implemented")
  | fuel + 1, .ifStmt cond thenBranch elseBranch, st =>
      match evalExpr fuel cond st with
      | (st1, .error m) => (st1, .error m)
      | (st1, .ok v) =>
          if isTruthy v then execStmt fuel thenBranch st1
          else
            match elseBranch with
            | some s => execStmt fuel s st1
            | none => (st1, .ok ())
  | fuel + 1, .whileStmt cond body, st =>
      match evalExpr fuel cond st with
      | (st1, .error m) => (st1, .error m)
      | (st1, .ok v) =>
          if isTruthy v then
            match execStmt fuel body st1 with
            | (st2, .error m) => (st2, .error m)
            | (st2, .ok _) => execStmt fuel (Stmt.whileStmt cond body) st2
          else (st1, .ok ())
  | _ + 1, .forStmt _ _ _ _, st => (st, .error "For loops not yet implemented")

/-- Ordered execution of a statement list, used by both `visit(Block&)`
and `visit(Program&)`; the first failure aborts the rest. -/
def execStmts : Nat → List Stmt → InterpState → InterpState × Except String Unit
  | 0, _, st => (st, .error fuelError)
  | _ + 1, [], st => (st, .ok ())
  | fuel + 1, s :: rest, st =>
      match execStmt fuel s st with
      | (st1, .error m) => (st1, .error m)
      | (st1, .ok _) => execStmts fuel rest st1

end

/-- `Interpreter::execute(Program&)`: run the top-level statements in
order against the current state. -/
def execute (fuel : Nat) (program : List Stmt) (st : InterpState) :
    InterpState × Except String Unit :=
  execStmts fuel program st

end Interp

/-- Token categories, mirroring `enum class TokenType` (token.h lines
9-121). -/
inductive TokenType where
  | INTEGER | FLOAT | STRING | BOOLEAN | NIL
  | IDENTIFIER
  | LET | MUT | FN | IF | ELSE | WHILE | FOR | IN | RETURN | TRUE | FALSE
  | IMPORT | EXPORT | WITH | CAPABILITIES | CAPSULE | DSL | FALLBACK | RETRY
  | CONTEXT | OVER | TAG | DID | EVOLVING
  | AT_SYNC | AT_ASYNC | AT_PARALLEL | AT_REACTIVE | AT_TEMPORAL
  | PLUS | MINUS | MULTIPLY | DIVIDE | MODULO | ASSIGN | PLUS_ASSIGN | MINUS_ASSIGN
  | ARROW | FAT_ARROW
  | EQUAL | NOT_EQUAL | LESS | LESS_EQUAL | GREATER | GREATER_EQUAL
  | AND | OR | NOT
  | SEMICOLON | COMMA | DOT | COLON | DOUBLE_COLON | QUESTION
  | LEFT_PAREN | RIGHT_PAREN | LEFT_BRACE | RIGHT_BRACE | LEFT_BRACKET | RIGHT_BRACKET
  | LEFT_ANGLE | RIGHT_ANGLE
  | HASH | EOF_TOKEN | NEWLINE | COMMENT
  | IF_CONTEXT
  | OBSERVABLE | SUBSCRIBE | EMIT
  | TRANSITION | TIMELINE
  | VERIFY | PROOF | HAS_PROOF
  | ERROR
deriving DecidableEq

/-- `struct Token` (token.h lines 123-144): kind, exact lexeme, optional
literal payload (the two-argument constructor leaves the
`std::variant<int64_t, double, std::string, bool>` default-constructed,
i.e. holding `int64_t` zero), and 1-based line/column. -/
structure Token where
  type : TokenType
  lexeme : String
  literal : RuntimeValue := .int 0
  line : Nat
  column : Nat
deriving DecidableEq

namespace Lexer

/-- The `Lexer`'s mutable fields (lexer.cpp, namespace `myndra` copy in
src/unnamed/part_001): the source text, the cursor `current_`, 1-based
`line_`/`column_`, and the accumulated diagnostics `errors_`. -/
structure LexState where
  source : List Char
  current : Nat
  line : Nat
  column : Nat
  errors : List String
deriving DecidableEq

/-- `Lexer::init_keywords` (lexer.cpp lines 20-57). -/
def keywords : List (String × TokenType) :=
  [("let", .LET), ("fn", .FN), ("if", .IF), ("else", .ELSE),
   ("while", .WHILE), ("for", .FOR), ("return", .RETURN),
   ("import", .IMPORT), ("export", .EXPORT), ("with", .WITH),
   ("capabilities", .CAPABILITIES), ("capsule", .CAPSULE), ("dsl", .DSL),
   ("fallback", .FALLBACK), ("retry", .RETRY), ("context", .CONTEXT),
   ("over", .OVER), ("tag", .TAG), ("did", .DID), ("evolving", .EVOLVING),
   ("true", .BOOLEAN), ("false", .BOOLEAN), ("nil", .NIL),
   ("and", .AND), ("or", .OR), ("not", .NOT),
   ("observable", .OBSERVABLE), ("subscribe", .SUBSCRIBE), ("emit", .EMIT),
   ("transition", .TRANSITION), ("timeline", .TIMELINE),
   ("verify", .VERIFY), ("proof", .PROOF), ("has_proof", .HAS_PROOF)]

/-- `Lexer::init_annotations` (lexer.cpp lines 59-67).  (The C++ member
is called `annotations_`; the table maps full `@`-prefixed spellings.) -/
def annotTable : List (String × TokenType) :=
  [("@sync", .AT_SYNC), ("@async", .AT_ASYNC), ("@parallel", .AT_PARALLEL),
   ("@reactive", .AT_REACTIVE), ("@temporal", .AT_TEMPORAL)]

def lookupTable (table : List (String × TokenType)) (key : String) : Option TokenType :=
  match table with
  | [] => none
  | (k, t) :: rest => if k = key then some t else lookupTable rest key

/-- `Lexer::is_at_end`. -/
def is_at_end (st : LexState) : Bool := st.source.length ≤ st.current

/-- `Lexer::advance` (lexer.cpp lines 178-182): consume one character,
bumping the column. -/
def advance (st : LexState) : Char × LexState :=
  if is_at_end st then ('\x00', st)
  else (st.source.getD st.current '\x00',
        { st with current := st.current + 1, column := st.column + 1 })

/-- `Lexer::peek`. -/
def peek (st : LexState) : Char :=
  if is_at_end st then '\x00' else st.source.getD st.current '\x00'

/-- `Lexer::peek_next`. -/
def peek_next (st : LexState) : Char :=
  if st.source.length ≤ st.current + 1 then '\x00'
  else st.source.getD (st.current + 1) '\x00'

/-- `Lexer::match` (lexer.cpp lines 194-200); `match` is reserved in
Lean, hence the suffix. -/
def matchc (st : LexState) (expected : Char) : Bool × LexState :=
  if is_at_end st then (false, st)
  else if st.source.getD st.current '\x00' ≠ expected then (false, st)
  else (true, { st with current := st.current + 1, column := st.column + 1 })

/-- `Lexer::is_alpha`: `std::isalpha` (ASCII letters) or underscore. -/
def is_alpha (c : Char) : Bool :=
  ('a' ≤ c ∧ c ≤ 'z') ∨ ('A' ≤ c ∧ c ≤ 'Z') ∨ c = '_'

/-- `Lexer::is_digit`. -/
def is_digit (c : Char) : Bool := '0' ≤ c ∧ c ≤ '9'

/-- `Lexer::is_alnum`: `std::isalnum` or underscore. -/
def is_alnum (c : Char) : Bool :=
  ('a' ≤ c ∧ c ≤ 'z') ∨ ('A' ≤ c ∧ c ≤ 'Z') ∨ ('0' ≤ c ∧ c ≤ '9') ∨ c = '_'

/-- `Lexer::add_error` (lexer.cpp lines 385-389): push one formatted
diagnostic. -/
def add_error (st : LexState) (message : String) : LexState :=
  { st with errors := st.errors ++
      ["Line " ++ toString st.line ++ ", Column " ++ toString st.column ++
        ": " ++ message] }

/-- `Lexer::make_token(type, string value)`: lexeme and literal both the
given string (lexer.cpp lines 373-375). -/
def make_token_str (st : LexState) (type : TokenType) (value : String) : Token :=
  { type := type, lexeme := value, literal := .str value,
    line := st.line, column := st.column }

/-- `Lexer::make_token(type, int64_t value)` (lexer.cpp lines 365-367). -/
def make_token_int (st : LexState) (type : TokenType) (value : Int) : Token :=
  { type := type, lexeme := toString value, literal := .int value,
    line := st.line, column := st.column }

/-- `Lexer::make_token(type, double value)` (lexer.cpp lines 369-371). -/
def make_token_float (st : LexState) (type : TokenType) (value : ℚ) : Token :=
  { type := type, lexeme := Interp.doubleToString value, literal := .float value,
    line := st.line, column := st.column }

/-- `Lexer::make_token(type, bool value)` (lexer.cpp lines 377-379). -/
def make_token_bool (st : LexState) (type : TokenType) (value : Bool) : Token :=
  { type := type, lexeme := if value then "true" else "false",
    literal := .bool value, line := st.line, column := st.column }

/-- `Lexer::make_token(type)`: empty lexeme, default literal (lexer.cpp
lines 361-363). -/
def make_token (st : LexState) (type : TokenType) : Token :=
  { type := type, lexeme := "", line := st.line, column := st.column }

/-- `Lexer::error_token` (lexer.cpp lines 381-383). -/
def error_token (st : LexState) (message : String) : Token :=
  { type := .ERROR, lexeme := message, line := st.line, column := st.column }

/-- `Lexer::skip_whitespace` (lexer.cpp lines 202-211): space, carriage
return, and tab only (newline is a token of its own). -/
def skip_whitespace : Nat → LexState → LexState
  | 0, st => st
  | fuel + 1, st =>
      if is_at_end st then st
      else
        let c := peek st
        if c = ' ' ∨ c = '\r' ∨ c = '\t' then
          skip_whitespace fuel (advance st).2
        else st

/-- `Lexer::skip_line_comment` (lexer.cpp lines 213-217). -/
def skip_line_comment : Nat → LexState → LexState
  | 0, st => st
  | fuel + 1, st =>
      if peek st ≠ '\n' ∧ ¬is_at_end st then
        skip_line_comment fuel (advance st).2
      else st

/-- `Lexer::skip_block_comment` (lexer.cpp lines 219-232), tracking
line/column through embedded newlines. -/
def skip_block_comment : Nat → LexState → LexState
  | 0, st => st
  | fuel + 1, st =>
      if is_at_end st then st
      else if peek st = '*' ∧ peek_next st = '/' then
        (advance (advance st).2).2
      else
        let st1 := if peek st = '\n' then { st with line := st.line + 1, column := 0 } else st
        skip_block_comment fuel (advance st1).2

/-- The body of `Lexer::string_literal`'s scanning loop (lexer.cpp lines
237-260), accumulating the unescaped content. -/
def string_body : Nat → LexState → String → LexState × String
  | 0, st, acc => (st, acc)
  | fuel + 1, st, acc =>
      if peek st ≠ '"' ∧ ¬is_at_end st then
        let st1 := if peek st = '\n' then { st with line := st.line + 1, column := 0 } else st
        if peek st1 = '\\' then
          let st2 := (advance st1).2
          let escaped := peek st2
          let (st3, acc1) :=
            if escaped = 'n' then (st2, acc.push '\n')
            else if escaped = 't' then (st2, acc.push '\t')
            else if escaped = 'r' then (st2, acc.push '\r')
            else if escaped = '\\' then (st2, acc.push '\\')
            else if escaped = '"' then (st2, acc.push '"')
            else (add_error st2 ("Unknown escape sequence: \\" ++ String.mk [escaped]),
                  acc.push escaped)
          string_body fuel (advance st3).2 acc1
        else
          let (c, st2) := advance st1
          string_body fuel st2 (acc.push c)
      else (st, acc)

/-- `Lexer::string_literal` (lexer.cpp lines 234-269): called after the
opening quote has been consumed; produces a STRING token whose lexeme is
the unescaped content without the surrounding quotes, or an ERROR token
for an unterminated string. -/
def string_literal (st : LexState) : Token × LexState :=
  let (st1, value) := string_body (st.source.length + 1) st ""
  if is_at_end st1 then
    let st2 := add_error st1 "Unterminated string"
    (error_token st2 "Unterminated string", st2)
  else
    let st2 := (advance st1).2
    (make_token_str st2 .STRING value, st2)

/-- Digit-run consumption inside `Lexer::number_literal`. -/
def digits_loop : Nat → LexState → LexState
  | 0, st => st
  | fuel + 1, st =>
      if is_digit (peek st) then digits_loop fuel (advance st).2 else st

/-- Value of a (non-empty) decimal digit run, as `std::stoll` computes it
for the digit-only strings the lexer extracts. -/
def natOfDigits (cs : List Char) : Nat :=
  cs.foldl (fun acc c => acc * 10 + (c.toNat - '0'.toNat)) 0

/-- `Lexer::number_literal` (lexer.cpp lines 271-296): digits, then an
optional fractional part only when a `.` is directly followed by another
digit.  `std::stoll`/`std::stod` on the extracted substring are modelled
exactly (the decimal value as `Int`/`ℚ`). -/
def number_literal (st : LexState) : Token × LexState :=
  let start := st.current
  let st1 := digits_loop (st.source.length + 1) st
  let isFloat := peek st1 = '.' ∧ is_digit (peek_next st1)
  let st2 :=
    if isFloat then digits_loop (st.source.length + 1) (advance st1).2
    else st1
  let numberChars := (st2.source.drop start).take (st2.current - start)
  if isFloat then
    let intPart := numberChars.takeWhile (· ≠ '.')
    let fracPart := (numberChars.dropWhile (· ≠ '.')).drop 1
    let value : ℚ :=
      mkRat (natOfDigits intPart * 10 ^ fracPart.length + natOfDigits fracPart)
        (10 ^ fracPart.length)
    (make_token_float st2 .FLOAT value, st2)
  else
    (make_token_int st2 .INTEGER (natOfDigits numberChars : Int), st2)

/-- Alphanumeric-run consumption inside `Lexer::identifier_or_keyword`
and `Lexer::annotation`. -/
def alnum_loop : Nat → LexState → LexState
  | 0, st => st
  | fuel + 1, st =>
      if is_alnum (peek st) ∨ peek st = '_' then alnum_loop fuel (advance st).2 else st

/-- `Lexer::identifier_or_keyword` (lexer.cpp lines 298-319): longest
alphanumeric/underscore match, then the keyword table; `true`/`false`
yield a BOOLEAN token with a boolean literal payload, other keywords and
identifiers carry their text as lexeme and string payload. -/
def identifier_or_keyword (st : LexState) : Token × LexState :=
  let start := st.current
  let st1 := alnum_loop (st.source.length + 1) st
  let text := String.mk ((st1.source.drop start).take (st1.current - start))
  match lookupTable keywords text with
  | some t =>
      if t = .BOOLEAN then (make_token_bool st1 t (text = "true"), st1)
      else (make_token_str st1 t text, st1)
  | none => (make_token_str st1 .IDENTIFIER text, st1)

/-- `Lexer::semantic_tag`'s consumption loop (alphanumerics, underscore,
colon). -/
def tag_loop : Nat → LexState → LexState
  | 0, st => st
  | fuel + 1, st =>
      if is_alnum (peek st) ∨ peek st = '_' ∨ peek st = ':' then
        tag_loop fuel (advance st).2
      else st

/-- `Lexer::semantic_tag` (lexer.cpp lines 339-347): the `#` has been
consumed; consume the tag body and emit a TAG token with empty lexeme. -/
def semantic_tag (st : LexState) : Token × LexState :=
  let st1 := tag_loop (st.source.length + 1) st
  (make_token_str st1 .TAG "", st1)

/-- `Lexer::annotation` (lexer.cpp lines 321-337; renamed because of a
reserved suffix): the `@` has been consumed, `start = current_ - 1`
includes it; unknown annotations record a diagnostic and produce an
ERROR token. -/
def annotTok (st : LexState) : Token × LexState :=
  let start := st.current - 1
  let st1 := alnum_loop (st.source.length + 1) st
  let text := String.mk ((st1.source.drop start).take (st1.current - start))
  match lookupTable annotTable text with
  | some t => (make_token st1 t, st1)
  | none =>
      let st2 := add_error st1 ("Unknown annotation: " ++ text)
      (error_token st2 "Unknown annotation", st2)

/-- `Lexer::next_token` (lexer.cpp lines 89-172): skip whitespace, then
the big single/double-character dispatch.  Lexemes are those of the
`myndra`-namespace copy (src/unnamed/part_001), which spells each
token's source text out. -/
def next_token (st : LexState) : Token × LexState :=
  let st := skip_whitespace (st.source.length + 1) st
  if is_at_end st then (make_token_str st .EOF_TOKEN "", st)
  else
    let (c, st) := advance st
    if c = '(' then (make_token_str st .LEFT_PAREN "(", st)
    else if c = ')' then (make_token_str st .RIGHT_PAREN ")", st)
    else if c = '{' then (make_token_str st .LEFT_BRACE "\x7b", st)
    else if c = '}' then (make_token_str st .RIGHT_BRACE "\x7d", st)
    else if c = '[' then (make_token_str st .LEFT_BRACKET "[", st)
    else if c = ']' then (make_token_str st .RIGHT_BRACKET "]", st)
    else if c = ',' then (make_token_str st .COMMA ",", st)
    else if c = '.' then (make_token_str st .DOT ".", st)
    else if c = ';' then (make_token_str st .SEMICOLON ";", st)
    else if c = '?' then (make_token_str st .QUESTION "?", st)
    else if c = '+' then
      match matchc st '=' with
      | (true, st) => (make_token_str st .PLUS_ASSIGN "+=", st)
      | (false, st) => (make_token_str st .PLUS "+", st)
    else if c = '-' then
      match matchc st '=' with
      | (true, st) => (make_token_str st .MINUS_ASSIGN "-=", st)
      | (false, st) =>
          match matchc st '>' with
          | (true, st) => (make_token_str st .ARROW "->", st)
          | (false, st) => (make_token_str st .MINUS "-", st)
    else if c = '*' then (make_token_str st .MULTIPLY "*", st)
    else if c = '%' then (make_token_str st .MODULO "%", st)
    else if c = '!' then
      match matchc st '=' with
      | (true, st) => (make_token_str st .NOT_EQUAL "!=", st)
      | (false, st) => (make_token_str st .NOT "!", st)
    else if c = '=' then
      match matchc st '=' with
      | (true, st) => (make_token_str st .EQUAL "==", st)
      | (false, st) =>
          match matchc st '>' with
          | (true, st) => (make_token_str st .FAT_ARROW "=>", st)
          | (false, st) => (make_token_str st .ASSIGN "=", st)
    else if c = '<' then
      match matchc st '=' with
      | (true, st) => (make_token_str st .LESS_EQUAL "<=", st)
      | (false, st) => (make_token_str st .LESS "<", st)
    else if c = '>' then
      match matchc st '=' with
      | (true, st) => (make_token_str st .GREATER_EQUAL ">=", st)
      | (false, st) => (make_token_str st .GREATER ">", st)
    else if c = ':' then
      match matchc st ':' with
      | (true, st) => (make_token_str st .DOUBLE_COLON "::", st)
      | (false, st) => (make_token_str st .COLON ":", st)
    else if c = '/' then
      match matchc st '/' with
      | (true, st) =>
          let st := skip_line_comment (st.source.length + 1) st
          (make_token_str st .COMMENT "", st)
      | (false, st) =>
          match matchc st '*' with
          | (true, st) =>
              let st := skip_block_comment (st.source.length + 1) st
              (make_token_str st .COMMENT "", st)
          | (false, st) => (make_token_str st .DIVIDE "/", st)
    else if c = '#' then
      if is_alpha (peek st) then semantic_tag st
      else (make_token_str st .HASH "#", st)
    else if c = '@' then annotTok st
    else if c = '\n' then
      let st := { st with line := st.line + 1, column := 1 }
      (make_token_str st .NEWLINE "\n", st)
    else if c = '"' then string_literal st
    else if is_digit c then
      -- back up to re-read the digit
      number_literal { st with current := st.current - 1, column := st.column - 1 }
    else if is_alpha c then
      -- back up to re-read the character
      identifier_or_keyword { st with current := st.current - 1, column := st.column - 1 }
    else
      let st := add_error st ("Unexpected character: " ++ String.mk [c])
      (error_token st "Unexpected character", st)

/-- The `while (!is_at_end())` loop of `Lexer::tokenize` (lexer.cpp lines
72-80): collect tokens, filtering COMMENT, stopping at EOF or ERROR. -/
def tokenize_loop : Nat → LexState → List Token → List Token × LexState
  | 0, st, acc => (acc, st)
  | fuel + 1, st, acc =>
      if is_at_end st then (acc, st)
      else
        let (tok, st1) := next_token st
        let acc1 := if tok.type = .COMMENT then acc else acc ++ [tok]
        if tok.type = .EOF_TOKEN ∨ tok.type = .ERROR then (acc1, st1)
        else tokenize_loop fuel st1 acc1

/-- `Lexer::tokenize` (lexer.cpp lines 69-87) on a fresh lexer
(`current_ = 0`, `line_ = 1`, `column_ = 1`): the final token sequence,
with exactly one terminating EOF token appended when the loop did not
already end with one, paired with the accumulated diagnostics. -/
def tokenize (source : String) : List Token × List String :=
  let st0 : LexState :=
    { source := source.data, current := 0, line := 1, column := 1, errors := [] }
  let (toks, st) := tokenize_loop (source.length + 1) st0 []
  let toks1 :=
    if toks = [] ∨ (toks.getLast?.map Token.type) ≠ some .EOF_TOKEN then
      toks ++ [{ type := .EOF_TOKEN, lexeme := "", line := st.line, column := st.column }]
    else toks
  (toks1, st.errors)

end Lexer

namespace Parser

/-- The static `eof_token` returned by `Parser::currentToken` and
`Parser::peekToken` when out of range (parser.cpp lines 14 and 23):
note its line and column are 0, unlike lexer-produced EOF tokens. -/
def eofTok : Token := { type := .EOF_TOKEN, lexeme := "", line := 0, column := 0 }

/-- The `Parser`'s mutable fields (parser.h in src/unnamed/part_003):
the token vector, the cursor `current_`, and the diagnostics `errors_`. -/
structure PState where
  tokens : List Token
  current : Nat
  errors : List String

/-- `Parser::isAtEnd` (parser.cpp lines 29-31). -/
def isAtEnd (st : PState) : Bool :=
  st.tokens.length ≤ st.current ∨
    (st.current < st.tokens.length ∧
      (st.tokens.getD st.current eofTok).type = .EOF_TOKEN)

/-- `Parser::currentToken` (parser.cpp lines 12-18). -/
def currentToken (st : PState) : Token :=
  if isAtEnd st then eofTok else st.tokens.getD st.current eofTok

/-- `Parser::peekToken` (parser.cpp lines 20-27); the C++ default
argument is `offset = 1`. -/
def peekToken (st : PState) (offset : Nat) : Token :=
  if st.tokens.length ≤ st.current + offset then eofTok
  else st.tokens.getD (st.current + offset) eofTok

/-- `Parser::advance` (parser.cpp lines 33-37).  (When already at end
with `current_ = 0` the C++ reads `tokens_[-1]`; that path is unreachable
from the call sites modelled here, and `getD` makes it total.) -/
def advance (st : PState) : Token × PState :=
  let st1 := if ¬isAtEnd st then { st with current := st.current + 1 } else st
  (st1.tokens.getD (st1.current - 1) eofTok, st1)

/-- `Parser::check` (parser.cpp lines 39-42). -/
def check (st : PState) (t : TokenType) : Bool :=
  ¬isAtEnd st ∧ (currentToken st).type = t

/-- `Parser::match(TokenType)` (parser.cpp lines 44-50); `match` is
reserved in Lean, hence the suffix. -/
def matchT (st : PState) (t : TokenType) : Bool × PState :=
  if check st t then (true, (advance st).2) else (false, st)

/-- `Parser::match(vector<TokenType>)` (parser.cpp lines 52-60),
returning which type matched (the type of `tokens_[current_ - 1]` after
the advance). -/
def matchAny (st : PState) (types : List TokenType) : Option TokenType × PState :=
  match types with
  | [] => (none, st)
  | t :: rest => if check st t then (some t, (advance st).2) else matchAny st rest

/-- `Parser::error` (parser.cpp lines 71-78): push one formatted
diagnostic built from the current token; parsing continues. -/
def error (st : PState) (message : String) : PState :=
  let token := currentToken st
  { st with errors := st.errors ++
      ["Parse error at line " ++ toString token.line ++ ", column " ++
        toString token.column ++ ": " ++ message ++ " (got '" ++
        token.lexeme ++ "')"] }

/-- `Parser::consume` (parser.cpp lines 62-69): on mismatch, record a
diagnostic and return the current (wrong) token without advancing. -/
def consume (st : PState) (t : TokenType) (message : String) : Token × PState :=
  if check st t then advance st
  else
    let st1 := error st message
    (currentToken st1, st1)

/-- `Parser::tokenToBinaryOperator` (parser.cpp lines 504-524); the
unreached `default:` returns `Add`. -/
def tokenToBinaryOperator : TokenType → BinaryOperator
  | .PLUS => .add
  | .MINUS => .sub
  | .MULTIPLY => .mul
  | .DIVIDE => .div
  | .MODULO => .mod
  | .EQUAL => .eq
  | .NOT_EQUAL => .ne
  | .LESS => .lt
  | .LESS_EQUAL => .le
  | .GREATER => .gt
  | .GREATER_EQUAL => .ge
  | .AND => .and
  | .OR => .or
  | .ASSIGN => .assign
  | _ => .add

/-- `Parser::tokenToUnaryOperator` (parser.cpp lines 526-535). -/
def tokenToUnaryOperator : TokenType → UnaryOperator
  | .NOT => .not
  | .MINUS => .neg
  | .PLUS => .plus
  | _ => .neg

/-- The quote-stripping step that appears verbatim in both
`Parser::parsePrimary`'s STRING case (parser.cpp lines 290-293) and
`Parser::parseContextConditional` (parser.cpp lines 325-328): remove one
leading and one trailing double quote when the value is at least two
characters long and has both. -/
def stripQuotes (s : String) : String :=
  if 2 ≤ s.length ∧ s.front = '"' ∧ s.back = '"' then
    (s.drop 1).take (s.length - 2)
  else s

/-- `std::stoll` on the lexeme of an INTEGER token (an optional sign
followed by digits; lexer-produced INTEGER lexemes are exactly the
canonical decimal digits of the value). -/
def stollModel (s : String) : Int :=
  match s.data with
  | '-' :: rest => -(Lexer.natOfDigits rest : Int)
  | cs => (Lexer.natOfDigits cs : Int)

/-- `std::stod` on the lexeme of a FLOAT token (digits, one `.`, digits —
the shape `std::to_string(double)` produced in the lexer), modelled as
the exact decimal value. -/
def stodModel (s : String) : ℚ :=
  let intPart := s.data.takeWhile (· ≠ '.')
  let fracPart := (s.data.dropWhile (· ≠ '.')).drop 1
  mkRat (Lexer.natOfDigits intPart * 10 ^ fracPart.length + Lexer.natOfDigits fracPart)
    (10 ^ fracPart.length)

/-- A parse-tree result: `none` models a null `unique_ptr<Expression>`.
Where the C++ would embed a null child inside a freshly built node (a
situation that always follows at least one recorded diagnostic), the
model collapses the whole node to `none`; no claim below depends on the
expression value of such a broken parse, and the control flow and
diagnostics are unaffected (the only inspection of a built node is
`parseAssignment`'s identifier check, where a poisoned node and a null
behave identically). -/
def mkBinary (l : Option Expr) (op : BinaryOperator) (r : Option Expr) : Option Expr :=
  match l, r with
  | some a, some b => some (.binary a op b)
  | _, _ => none

/-- All-or-nothing collection of a C++ argument vector that may contain
null pointers (see `mkBinary`'s note on poisoning). -/
def sequenceArgs (args : List (Option Expr)) : Option (List Expr) :=
  match args with
  | [] => some []
  | none :: _ => none
  | some e :: rest => (sequenceArgs rest).map fun es => e :: es

/-- `Parser::finishMemberAccess` (parser.cpp lines 353-356). -/
def finishMemberAccess (e : Option Expr) (st : PState) : Option Expr × PState :=
  let (name, st) := consume st .IDENTIFIER "Expect property name after '.'"
  (e.map fun o => .memberAccess o name.lexeme, st)

/-- `Parser::parseContextConditional` (parser.cpp lines 313-331): a
straight-line consumer that demands IF, an identifier, and **two**
consecutive EQUAL (`==`) tokens before the context string; on a missing
string it records a diagnostic and returns the wrapped expression
unchanged. -/
def parseContextConditional (expr : Option Expr) (st : PState) : Option Expr × PState :=
  let (_, st) := consume st .IF "Expected 'if' for context conditional"
  let (_, st) := consume st .IDENTIFIER "Expected 'context' identifier"
  let (_, st) := consume st .EQUAL "Expected '==' in context conditional"
  let (_, st) := consume st .EQUAL "Expected '==' in context conditional"
  match matchT st .STRING with
  | (false, st) =>
      (expr, error st "Expected context string (\"dev\", \"prod\", or \"test\")")
  | (true, st) =>
      let context := stripQuotes (st.tokens.getD (st.current - 1) eofTok).lexeme
      (expr.map fun e => .contextCond e context, st)

mutual

/-- `Parser::parseExpression` (parser.cpp lines 128-130). -/
def parseExpression : Nat → PState → Option Expr × PState
  | 0, st => (none, st)
  | fuel + 1, st => parseAssignment fuel st

/-- `Parser::parseAssignment` (parser.cpp lines 146-162): right
associative; a non-identifier target records "Invalid assignment target"
and yields the already-built left expression. -/
def parseAssignment : Nat → PState → Option Expr × PState
  | 0, st => (none, st)
  | fuel + 1, st =>
      let (expr, st) := parseLogicalOr fuel st
      match matchT st .ASSIGN with
      | (true, st) =>
          let (value, st) := parseAssignment fuel st
          match expr with
          | some (.ident name) => (mkBinary (some (.ident name)) .assign value, st)
          | _ => (expr, error st "Invalid assignment target")
      | (false, st) => (expr, st)

/-- `Parser::parseLogicalOr` (parser.cpp lines 164-174). -/
def parseLogicalOr : Nat → PState → Option Expr × PState
  | 0, st => (none, st)
  | fuel + 1, st =>
      let (expr, st) := parseLogicalAnd fuel st
      parseLogicalOrLoop fuel expr st

def parseLogicalOrLoop : Nat → Option Expr → PState → Option Expr × PState
  | 0, e, st => (e, st)
  | fuel + 1, e, st =>
      match matchT st .OR with
      | (true, st) =>
          let (right, st) := parseLogicalAnd fuel st
          parseLogicalOrLoop fuel (mkBinary e .or right) st
      | (false, st) => (e, st)

/-- `Parser::parseLogicalAnd` (parser.cpp lines 176-186). -/
def parseLogicalAnd : Nat → PState → Option Expr × PState
  | 0, st => (none, st)
  | fuel + 1, st =>
      let (expr, st) := parseEquality fuel st
      parseLogicalAndLoop fuel expr st

def parseLogicalAndLoop : Nat → Option Expr → PState → Option Expr × PState
  | 0, e, st => (e, st)
  | fuel + 1, e, st =>
      match matchT st .AND with
      | (true, st) =>
          let (right, st) := parseEquality fuel st
          parseLogicalAndLoop fuel (mkBinary e .and right) st
      | (false, st) => (e, st)

/-- `Parser::parseEquality` (parser.cpp lines 188-198). -/
def parseEquality : Nat → PState → Option Expr × PState
  | 0, st => (none, st)
  | fuel + 1, st =>
      let (expr, st) := parseComparison fuel st
      parseEqualityLoop fuel expr st

def parseEqualityLoop : Nat → Option Expr → PState → Option Expr × PState
  | 0, e, st => (e, st)
  | fuel + 1, e, st =>
      match matchAny st [.EQUAL, .NOT_EQUAL] with
      | (some t, st) =>
          let (right, st) := parseComparison fuel st
          parseEqualityLoop fuel (mkBinary e (tokenToBinaryOperator t) right) st
      | (none, st) => (e, st)

/-- `Parser::parseComparison` (parser.cpp lines 200-210). -/
def parseComparison : Nat → PState → Option Expr × PState
  | 0, st => (none, st)
  | fuel + 1, st =>
      let (expr, st) := parseTerm fuel st
      parseComparisonLoop fuel expr st

def parseComparisonLoop : Nat → Option Expr → PState → Option Expr × PState
  | 0, e, st => (e, st)
  | fuel + 1, e, st =>
      match matchAny st [.LESS, .LESS_EQUAL, .GREATER, .GREATER_EQUAL] with
      | (some t, st) =>
          let (right, st) := parseTerm fuel st
          parseComparisonLoop fuel (mkBinary e (tokenToBinaryOperator t) right) st
      | (none, st) => (e, st)

/-- `Parser::parseTerm` (parser.cpp lines 212-222). -/
def parseTerm : Nat → PState → Option Expr × PState
  | 0, st => (none, st)
  | fuel + 1, st =>
      let (expr, st) := parseFactor fuel st
      parseTermLoop fuel expr st

def parseTermLoop : Nat → Option Expr → PState → Option Expr × PState
  | 0, e, st => (e, st)
  | fuel + 1, e, st =>
      match matchAny st [.PLUS, .MINUS] with
      | (some t, st) =>
          let (right, st) := parseFactor fuel st
          parseTermLoop fuel (mkBinary e (tokenToBinaryOperator t) right) st
      | (none, st) => (e, st)

/-- `Parser::parseFactor` (parser.cpp lines 224-234). -/
def parseFactor : Nat → PState → Option Expr × PState
  | 0, st => (none, st)
  | fuel + 1, st =>
      let (expr, st) := parseUnary fuel st
      parseFactorLoop fuel expr st

def parseFactorLoop : Nat → Option Expr → PState → Option Expr × PState
  | 0, e, st => (e, st)
  | fuel + 1, e, st =>
      match matchAny st [.MULTIPLY, .DIVIDE, .MODULO] with
      | (some t, st) =>
          let (right, st) := parseUnary fuel st
          parseFactorLoop fuel (mkBinary e (tokenToBinaryOperator t) right) st
      | (none, st) => (e, st)

/-- `Parser::parseUnary` (parser.cpp lines 236-244). -/
def parseUnary : Nat → PState → Option Expr × PState
  | 0, st => (none, st)
  | fuel + 1, st =>
      match matchAny st [.NOT, .MINUS, .PLUS] with
      | (some t, st) =>
          let (right, st) := parseUnary fuel st
          (right.map fun r => .unary (tokenToUnaryOperator t) r, st)
      | (none, st) => parseCall fuel st

/-- `Parser::parseCall` (parser.cpp lines 246-267): primary expression,
postfix loop, then the context-conditional lookahead `check(IF) &&
peekToken().type == IDENTIFIER && peekToken(2).type == EQUAL`. -/
def parseCall : Nat → PState → Option Expr × PState
  | 0, st => (none, st)
  | fuel + 1, st =>
      let (expr, st) := parsePrimary fuel st
      let (expr, st) := parseCallLoop fuel expr st
      if check st .IF ∧ (peekToken st 1).type = .IDENTIFIER ∧
          (peekToken st 2).type = .EQUAL then
        parseContextConditional expr st
      else (expr, st)

/-- The `while (true)` postfix loop inside `Parser::parseCall`. -/
def parseCallLoop : Nat → Option Expr → PState → Option Expr × PState
  | 0, e, st => (e, st)
  | fuel + 1, e, st =>
      match matchT st .LEFT_PAREN with
      | (true, st) =>
          let (e, st) := finishCall fuel e st
          parseCallLoop fuel e st
      | (false, st) =>
          match matchT st .LEFT_BRACKET with
          | (true, st) =>
              let (e, st) := finishArrayAccess fuel e st
              parseCallLoop fuel e st
          | (false, st) =>
              match matchT st .DOT with
              | (true, st) =>
                  let (e, st) := finishMemberAccess e st
                  parseCallLoop fuel e st
              | (false, st) => (e, st)

/-- `Parser::finishCall` (parser.cpp lines 334-345). -/
def finishCall : Nat → Option Expr → PState → Option Expr × PState
  | 0, e, st => (e, st)
  | fuel + 1, callee, st =>
      let (args, st) :=
        if check st .RIGHT_PAREN then (([] : List (Option Expr)), st)
        else parseArgsLoop fuel st
      let (_, st) := consume st .RIGHT_PAREN "Expect ')' after arguments"
      match callee, sequenceArgs args with
      | some c, some as1 => (some (.call c as1), st)
      | _, _ => (none, st)

/-- The do-while argument loop shared by `Parser::finishCall` (and the
identical `Parser::parseArgumentList`). -/
def parseArgsLoop : Nat → PState → List (Option Expr) × PState
  | 0, st => ([], st)
  | fuel + 1, st =>
      let (e, st) := parseExpression fuel st
      match matchT st .COMMA with
      | (true, st) =>
          let (rest, st) := parseArgsLoop fuel st
          (e :: rest, st)
      | (false, st) => ([e], st)

/-- `Parser::finishArrayAccess` (parser.cpp lines 347-351). -/
def finishArrayAccess : Nat → Option Expr → PState → Option Expr × PState
  | 0, e, st => (e, st)
  | fuel + 1, arr, st =>
      let (index, st) := parseExpression fuel st
      let (_, st) := consume st .RIGHT_BRACKET "Expect ']' after array index"
      match arr, index with
      | some a, some i => (some (.arrayAccess a i), st)
      | _, _ => (none, st)

/-- `Parser::parsePrimary` (parser.cpp lines 269-310).  Note the first
two branches test `TokenType::TRUE` and `TokenType::FALSE`, token kinds
the lexer never produces (`true`/`false` lex to `TokenType::BOOLEAN`). -/
def parsePrimary : Nat → PState → Option Expr × PState
  | 0, st => (none, st)
  | fuel + 1, st =>
      match matchT st .TRUE with
      | (true, st) => (some (.boolLit true), st)
      | (false, st) =>
      match matchT st .FALSE with
      | (true, st) => (some (.boolLit false), st)
      | (false, st) =>
      match matchT st .INTEGER with
      | (true, st) =>
          (some (.intLit (stollModel (st.tokens.getD (st.current - 1) eofTok).lexeme)), st)
      | (false, st) =>
      match matchT st .FLOAT with
      | (true, st) =>
          (some (.floatLit (stodModel (st.tokens.getD (st.current - 1) eofTok).lexeme)), st)
      | (false, st) =>
      match matchT st .STRING with
      | (true, st) =>
          (some (.strLit (stripQuotes (st.tokens.getD (st.current - 1) eofTok).lexeme)), st)
      | (false, st) =>
      match matchT st .IDENTIFIER with
      | (true, st) =>
          (some (.ident (st.tokens.getD (st.current - 1) eofTok).lexeme), st)
      | (false, st) =>
      match matchT st .LEFT_PAREN with
      | (true, st) =>
          let (expr, st) := parseExpression fuel st
          let (_, st) := consume st .RIGHT_PAREN "Expect ')' after expression"
          (expr, st)
      | (false, st) =>
          let st := error st "Expect expression"
          let st := if ¬isAtEnd st then (advance st).2 else st
          (none, st)

end

end Parser

/-- A non-keyword identifier token at a fixed position, used to state
token-shape properties. -/
def idTok (x : String) : Token :=
  { type := .IDENTIFIER, lexeme := x, literal := .str x, line := 1, column := 1 }

/-- An `if` keyword token at a fixed position. -/
def ifTok : Token :=
  { type := .IF, lexeme := "if", literal := .str "if", line := 1, column := 1 }

/-- An `==` token (TokenType::EQUAL) at a fixed position. -/
def eqTok : Token :=
  { type := .EQUAL, lexeme := "==", literal := .str "==", line := 1, column := 1 }

/-- A string-literal token at a fixed position; as the lexer produces
them, the lexeme is the unescaped content. -/
def strTok (s : String) : Token :=
  { type := .STRING, lexeme := s, literal := .str s, line := 1, column := 1 }

/-- The same-runtime-type pairings under which the spec says binary
arithmetic succeeds: int-int, float-float, and (for `+` only, via
`addPair`) string-string. -/
def numPair (l r : RuntimeValue) : Prop :=
  (∃ a b, l = .int a ∧ r = .int b) ∨ (∃ p q, l = .float p ∧ r = .float q)

/-- Same-type pairings accepted by addition: `numPair` or string-string
concatenation. -/
def addPair (l r : RuntimeValue) : Prop :=
  numPair l r ∨ ∃ s t, l = .str s ∧ r = .str t

/-- Modelled from the amended claim for `substring`: two or three
arguments; first must be a string, second must be an integer; a negative
or out-of-range `start` yields the empty string — in the three-argument
form this early return happens before the third argument's type is
inspected; a negative `length` yields the empty string; omitted `length`
returns the remainder from `start`; wrong arity, a non-string first
argument, a non-integer second argument, or (with `start` in range) a
non-integer third argument is a fatal failure. -/
def callSubstringSpec (args : List RuntimeValue) : Except String RuntimeValue :=
  match args with
  | [.str s, .int start] =>
      if start < 0 ∨ (s.length : Int) ≤ start then .ok (.str "")
      else .ok (.str (s.drop start.toNat))
  | [.str s, .int start, third] =>
      if start < 0 ∨ (s.length : Int) ≤ start then .ok (.str "")
      else
        match third with
        | .int len =>
            if len < 0 then .ok (.str "")
            else .ok (.str ((s.drop start.toNat).take len.toNat))
        | _ => .error "substring() third argument must be an integer"
  | [.str _, _] => .error "substring() second argument must be an integer"
  | [.str _, _, _] => .error "substring() second argument must be an integer"
  | [_, _] => .error "substring() first argument must be a string"
  | [_, _, _] => .error "substring() first argument must be a string"
  | _ => .error "substring() expects 2 or 3 arguments: substring(string, start, [length])"

end Myndra

namespace Myndra

open Interp

/-- Claim C1: for every block statement and every starting state, the
environment current immediately after the (possibly failing) execution of
the block equals the environment current immediately before entering it —
`visit(Block&)` restores the saved parent environment on the success path
and in its catch-all handler alike, so the child environment never leaks
on any exit path. -/
theorem C1_block_restores_environment :
    ∀ (fuel : Nat) (stmts : List Stmt) (st : InterpState),
      ((execStmt fuel (.block stmts) st).1).env = st.env := by
  intro fuel stmts st
  cases fuel with
  | zero => rfl
  | succ f =>
      show ((match execStmts f stmts { st with env := ([] : Frame) :: st.env } with
        | (st2, .error m) => ({ st2 with env := st.env }, Except.error m)
        | (st2, .ok _) => ({ st2 with env := st.env }, Except.ok ())).1).env = st.env
      rcases h : execStmts f stmts { st with env := ([] : Frame) :: st.env } with ⟨st2, r⟩
      cases r <;> rfl

/-- Claim C3: a division whose operands are both integers or both floats
fails with "Division by zero" exactly when the right operand is integer 0
or float 0.0, and otherwise returns the quotient (C++ `int64_t` division
truncates toward zero, hence `Int.tdiv`); the model's value domain has no
infinity or NaN to produce.  Stated both on the operator core and on the
evaluation of a division expression over literals. -/
theorem C3_division_by_zero :
    (∀ a b : Int, applyBinary .div (.int a) (.int b) =
      if b = 0 then .error "Division by zero" else .ok (.int (a.tdiv b))) ∧
    (∀ p q : ℚ, applyBinary .div (.float p) (.float q) =
      if q = 0 then .error "Division by zero" else .ok (.float (p / q))) ∧
    (∀ (f : Nat) (st : InterpState) (a b : Int),
      evalExpr (f + 2) (.binary (.intLit a) .div (.intLit b)) st =
        (st, if b = 0 then .error "Division by zero" else .ok (.int (a.tdiv b)))) ∧
    (∀ (f : Nat) (st : InterpState) (p q : ℚ),
      evalExpr (f + 2) (.binary (.floatLit p) .div (.floatLit q)) st =
        (st, if q = 0 then .error "Division by zero" else .ok (.float (p / q)))) := by
  refine ⟨fun a b => rfl, fun p q => rfl, fun f st a b => rfl, fun f st p q => rfl⟩

/-- Claim C4: tokenizing `let x = 42 + 3.14` yields exactly 7 tokens, in
order LET, IDENTIFIER with lexeme "x", ASSIGN, INTEGER with value 42,
PLUS, FLOAT with value 3.14 (= 157/50), and the terminating EOF token,
with no diagnostics. -/
theorem C4_tokenize_example :
    Lexer.tokenize "let x = 42 + 3.14" =
      ([{ type := .LET, lexeme := "let", literal := .str "let", line := 1, column := 4 },
        { type := .IDENTIFIER, lexeme := "x", literal := .str "x", line := 1, column := 6 },
        { type := .ASSIGN, lexeme := "=", literal := .str "=", line := 1, column := 8 },
        { type := .INTEGER, lexeme := "42", literal := .int 42, line := 1, column := 11 },
        { type := .PLUS, lexeme := "+", literal := .str "+", line := 1, column := 13 },
        { type := .FLOAT, lexeme := "3.140000", literal := .float (mkRat 157 50), line := 1, column := 18 },
        { type := .EOF_TOKEN, lexeme := "", literal := .int 0, line := 1, column := 18 }],
       []) := by
  decide

/-- Claim C2: binary arithmetic succeeds only on same-runtime-type
operands (int-int, float-float, and additionally string-string for `+`);
every other pairing — in particular any int/float mix, so there is no
numeric promotion — is a fatal invalid-operands failure with the
operator's message; and evaluating `1 + "x"` fails with the
invalid-operands-for-addition failure. -/
theorem C2_binary_arith_no_promotion :
    (∀ l r : RuntimeValue, (∃ v, applyBinary .add l r = .ok v) ↔ addPair l r) ∧
    (∀ l r : RuntimeValue,
      ¬addPair l r → applyBinary .add l r = .error "Invalid operands for addition") ∧
    (∀ l r : RuntimeValue, (∃ v, applyBinary .sub l r = .ok v) ↔ numPair l r) ∧
    (∀ l r : RuntimeValue,
      ¬numPair l r → applyBinary .sub l r = .error "Invalid operands for subtraction") ∧
    (∀ l r : RuntimeValue, (∃ v, applyBinary .mul l r = .ok v) ↔ numPair l r) ∧
    (∀ l r : RuntimeValue,
      ¬numPair l r → applyBinary .mul l r = .error "Invalid operands for multiplication") ∧
    (∀ l r : RuntimeValue, (∃ v, applyBinary .div l r = .ok v) → numPair l r) ∧
    (∀ l r : RuntimeValue,
      ¬numPair l r → applyBinary .div l r = .error "Invalid operands for division") ∧
    (∀ f : Nat, ∀ st : InterpState,
      evalExpr (f + 2) (.binary (.intLit 1) .add (.strLit "x")) st =
        (st, .error "Invalid operands for addition")) := by
  refine ⟨?_, ?_, ?_, ?_, ?_, ?_, ?_, ?_, fun f st => rfl⟩ <;>
    intro l r <;>
    rcases l with a | p | s | b <;> rcases r with a2 | p2 | s2 | b2 <;>
    simp [applyBinary, addPair, numPair]

/-- Claim C5 (the code contradicts its second half): the lexer does turn
`true`/`false` into BOOLEAN tokens carrying the boolean value (not
generic identifiers), but `parsePrimary` only accepts the never-produced
`TokenType::TRUE`/`FALSE` kinds, so parsing such a token as a primary
expression yields no boolean-literal node — it records an
"Expect expression" diagnostic and returns null, for every fuel. -/
theorem C5_boolean_token_not_parsed :
    ((Lexer.tokenize "true").1 =
      [{ type := .BOOLEAN, lexeme := "true", literal := .bool true, line := 1, column := 5 },
       { type := .EOF_TOKEN, lexeme := "", literal := .int 0, line := 1, column := 5 }]) ∧
    ((Lexer.tokenize "false").1 =
      [{ type := .BOOLEAN, lexeme := "false", literal := .bool false, line := 1, column := 6 },
       { type := .EOF_TOKEN, lexeme := "", literal := .int 0, line := 1, column := 6 }]) ∧
    (∀ f : Nat,
      Parser.parsePrimary (f + 1) ⟨(Lexer.tokenize "true").1, 0, []⟩ =
        (none, ⟨(Lexer.tokenize "true").1, 1,
          ["Parse error at line 1, column 5: Expect expression (got 'true')"]⟩)) ∧
    (∀ f : Nat,
      Parser.parsePrimary (f + 1) ⟨(Lexer.tokenize "false").1, 0, []⟩ =
        (none, ⟨(Lexer.tokenize "false").1, 1,
          ["Parse error at line 1, column 6: Expect expression (got 'false')"]⟩)) := by
  refine ⟨by decide, by decide, fun f => rfl, fun f => rfl⟩

/-- Claim C6, as amended: every diagnostic the Lexer records has the
format `Line {line}, Column {column}: {message}`, while every diagnostic
the Parser records has the format `Parse error at line {line}, column
{column}: {message} (got '{lexeme}')` — prefixed differently, with
lowercase labels, and with the got-part always appended, the line,
column and lexeme being those of the parser's current token. -/
theorem C6_diagnostic_formats :
    (∀ (st : Lexer.LexState) (msg : String),
      (Lexer.add_error st msg).errors =
        st.errors ++
          ["Line " ++ toString st.line ++ ", Column " ++ toString st.column ++
            ": " ++ msg]) ∧
    (∀ (st : Parser.PState) (msg : String),
      (Parser.error st msg).errors =
        st.errors ++
          ["Parse error at line " ++ toString (Parser.currentToken st).line ++
            ", column " ++ toString (Parser.currentToken st).column ++ ": " ++
            msg ++ " (got '" ++ (Parser.currentToken st).lexeme ++ "')"]) :=
  ⟨fun _ _ => rfl, fun _ _ => rfl⟩

/-- Claim C6 counterexample: the diagnostic the parser records while
parsing the expression `;` is
`Parse error at line 1, column 2: Expect expression (got ';')`, and that
string cannot be written as `Line {line}, Column {column}: {message}` for
any line, column and message — it does not even start with "Line". -/
theorem C6_parser_format_counterexample :
    (Parser.parseExpression 20 ⟨(Lexer.tokenize ";").1, 0, []⟩).2.errors =
      ["Parse error at line 1, column 2: Expect expression (got ';')"] ∧
    ¬ ∃ (l c : Nat) (m : String),
        "Parse error at line 1, column 2: Expect expression (got ';')" =
          "Line " ++ toString l ++ ", Column " ++ toString c ++ ": " ++ m := by
  refine ⟨rfl, ?_⟩
  rintro ⟨l, c, m, h⟩
  have h2 : ("Parse error at line 1, column 2: Expect expression (got ';')").data =
      ("Line " ++ toString l ++ ", Column " ++ toString c ++ ": " ++ m).data := by
    rw [h]
  simp [String.data_append] at h2

set_option maxHeartbeats 1000000 in
/-- Claim C7: after an expression, the parser wraps it in a
context-conditional without recording any diagnostic exactly when the
suffix is IF, an identifier, then **two** consecutive EQUAL (`==`)
tokens before the string token; with only one EQUAL before the string it
still builds the node but records an "Expected '==' in context
conditional" diagnostic, so the parse is not diagnostic-free. -/
theorem C7_context_conditional_needs_two_equals :
    (∀ (f : Nat) (x c s : String) (errs : List String),
      Parser.parseCall (f + 2)
          ⟨[idTok x, ifTok, idTok c, eqTok, eqTok, strTok s], 0, errs⟩ =
        (some (.contextCond (.ident x) (Parser.stripQuotes s)),
          ⟨[idTok x, ifTok, idTok c, eqTok, eqTok, strTok s], 6, errs⟩)) ∧
    (∀ (f : Nat) (x c s : String) (errs : List String),
      Parser.parseCall (f + 2)
          ⟨[idTok x, ifTok, idTok c, eqTok, strTok s], 0, errs⟩ =
        (some (.contextCond (.ident x) (Parser.stripQuotes s)),
          ⟨[idTok x, ifTok, idTok c, eqTok, strTok s], 5,
            errs ++ ["Parse error at line 1, column 1: Expected '==' in context conditional (got '" ++ s ++ "')"]⟩)) ∧
    (∀ (f : Nat) (x c s : String) (errs : List String),
      (Parser.parseCall (f + 2)
          ⟨[idTok x, ifTok, idTok c, eqTok, strTok s], 0, errs⟩).2.errors ≠ errs) := by
  have two : ∀ (f : Nat) (x c s : String) (errs : List String),
      Parser.parseCall (f + 2)
          ⟨[idTok x, ifTok, idTok c, eqTok, eqTok, strTok s], 0, errs⟩ =
        (some (.contextCond (.ident x) (Parser.stripQuotes s)),
          ⟨[idTok x, ifTok, idTok c, eqTok, eqTok, strTok s], 6, errs⟩) := by
    intro f x c s errs
    have h1 : Parser.parsePrimary (f + 1)
        ⟨[idTok x, ifTok, idTok c, eqTok, eqTok, strTok s], 0, errs⟩ =
        (some (.ident x), ⟨[idTok x, ifTok, idTok c, eqTok, eqTok, strTok s], 1, errs⟩) := rfl
    have h2 : Parser.parseCallLoop (f + 1) (some (Expr.ident x))
        ⟨[idTok x, ifTok, idTok c, eqTok, eqTok, strTok s], 1, errs⟩ =
        (some (.ident x), ⟨[idTok x, ifTok, idTok c, eqTok, eqTok, strTok s], 1, errs⟩) := rfl
    have c1 : Parser.consume ⟨[idTok x, ifTok, idTok c, eqTok, eqTok, strTok s], 1, errs⟩
        .IF "Expected 'if' for context conditional" =
        (ifTok, ⟨[idTok x, ifTok, idTok c, eqTok, eqTok, strTok s], 2, errs⟩) := rfl
    have c2 : Parser.consume ⟨[idTok x, ifTok, idTok c, eqTok, eqTok, strTok s], 2, errs⟩
        .IDENTIFIER "Expected 'context' identifier" =
        (idTok c, ⟨[idTok x, ifTok, idTok c, eqTok, eqTok, strTok s], 3, errs⟩) := rfl
    have c3 : Parser.consume ⟨[idTok x, ifTok, idTok c, eqTok, eqTok, strTok s], 3, errs⟩
        .EQUAL "Expected '==' in context conditional" =
        (eqTok, ⟨[idTok x, ifTok, idTok c, eqTok, eqTok, strTok s], 4, errs⟩) := rfl
    have c4 : Parser.consume ⟨[idTok x, ifTok, idTok c, eqTok, eqTok, strTok s], 4, errs⟩
        .EQUAL "Expected '==' in context conditional" =
        (eqTok, ⟨[idTok x, ifTok, idTok c, eqTok, eqTok, strTok s], 5, errs⟩) := rfl
    have c5 : Parser.matchT ⟨[idTok x, ifTok, idTok c, eqTok, eqTok, strTok s], 5, errs⟩
        .STRING =
        (true, ⟨[idTok x, ifTok, idTok c, eqTok, eqTok, strTok s], 6, errs⟩) := rfl
    have h3 : Parser.parseContextConditional (some (Expr.ident x))
        ⟨[idTok x, ifTok, idTok c, eqTok, eqTok, strTok s], 1, errs⟩ =
        (some (.contextCond (.ident x) (Parser.stripQuotes s)),
          ⟨[idTok x, ifTok, idTok c, eqTok, eqTok, strTok s], 6, errs⟩) := by
      rw [Parser.parseContextConditional.eq_def, c1]
      simp only []
      rw [c2]; simp only []
      rw [c3]; simp only []
      rw [c4]; simp only []
      rw [c5]; simp only []
      rfl
    show Parser.parseCall (f + 1 + 1) _ = _
    rw [Parser.parseCall.eq_def]
    simp only []
    rw [h1]; simp only []
    rw [h2]; simp only []
    rw [if_pos (by exact ⟨rfl, rfl, rfl⟩)]
    exact h3
  have one : ∀ (f : Nat) (x c s : String) (errs : List String),
      Parser.parseCall (f + 2)
          ⟨[idTok x, ifTok, idTok c, eqTok, strTok s], 0, errs⟩ =
        (some (.contextCond (.ident x) (Parser.stripQuotes s)),
          ⟨[idTok x, ifTok, idTok c, eqTok, strTok s], 5,
            errs ++ ["Parse error at line 1, column 1: Expected '==' in context conditional (got '" ++ s ++ "')"]⟩) := by
    intro f x c s errs
    have h1 : Parser.parsePrimary (f + 1)
        ⟨[idTok x, ifTok, idTok c, eqTok, strTok s], 0, errs⟩ =
        (some (.ident x), ⟨[idTok x, ifTok, idTok c, eqTok, strTok s], 1, errs⟩) := rfl
    have h2 : Parser.parseCallLoop (f + 1) (some (Expr.ident x))
        ⟨[idTok x, ifTok, idTok c, eqTok, strTok s], 1, errs⟩ =
        (some (.ident x), ⟨[idTok x, ifTok, idTok c, eqTok, strTok s], 1, errs⟩) := rfl
    have c1 : Parser.consume ⟨[idTok x, ifTok, idTok c, eqTok, strTok s], 1, errs⟩
        .IF "Expected 'if' for context conditional" =
        (ifTok, ⟨[idTok x, ifTok, idTok c, eqTok, strTok s], 2, errs⟩) := rfl
    have c2 : Parser.consume ⟨[idTok x, ifTok, idTok c, eqTok, strTok s], 2, errs⟩
        .IDENTIFIER "Expected 'context' identifier" =
        (idTok c, ⟨[idTok x, ifTok, idTok c, eqTok, strTok s], 3, errs⟩) := rfl
    have c3 : Parser.consume ⟨[idTok x, ifTok, idTok c, eqTok, strTok s], 3, errs⟩
        .EQUAL "Expected '==' in context conditional" =
        (eqTok, ⟨[idTok x, ifTok, idTok c, eqTok, strTok s], 4, errs⟩) := rfl
    have c4 : Parser.consume ⟨[idTok x, ifTok, idTok c, eqTok, strTok s], 4, errs⟩
        .EQUAL "Expected '==' in context conditional" =
        (strTok s, ⟨[idTok x, ifTok, idTok c, eqTok, strTok s], 4,
          errs ++ ["Parse error at line 1, column 1: Expected '==' in context conditional (got '" ++ s ++ "')"]⟩) := by
      simp [Parser.consume, Parser.error, Parser.check, Parser.currentToken,
        Parser.isAtEnd, Parser.advance, Parser.eofTok, idTok, ifTok, eqTok, strTok]
      rfl
    have c5 : Parser.matchT ⟨[idTok x, ifTok, idTok c, eqTok, strTok s], 4,
          errs ++ ["Parse error at line 1, column 1: Expected '==' in context conditional (got '" ++ s ++ "')"]⟩
        .STRING =
        (true, ⟨[idTok x, ifTok, idTok c, eqTok, strTok s], 5,
          errs ++ ["Parse error at line 1, column 1: Expected '==' in context conditional (got '" ++ s ++ "')"]⟩) := rfl
    have h3 : Parser.parseContextConditional (some (Expr.ident x))
        ⟨[idTok x, ifTok, idTok c, eqTok, strTok s], 1, errs⟩ =
        (some (.contextCond (.ident x) (Parser.stripQuotes s)),
          ⟨[idTok x, ifTok, idTok c, eqTok, strTok s], 5,
            errs ++ ["Parse error at line 1, column 1: Expected '==' in context conditional (got '" ++ s ++ "')"]⟩) := by
      rw [Parser.parseContextConditional.eq_def, c1]
      simp only []
      rw [c2]; simp only []
      rw [c3]; simp only []
      rw [c4]; simp only []
      rw [c5]; simp only []
      rfl
    show Parser.parseCall (f + 1 + 1) _ = _
    rw [Parser.parseCall.eq_def]
    simp only []
    rw [h1]; simp only []
    rw [h2]; simp only []
    rw [if_pos (by exact ⟨rfl, rfl, rfl⟩)]
    exact h3
  refine ⟨two, one, ?_⟩
  intro f x c s errs h
  rw [one f x c s errs] at h
  have h2 := congrArg List.length h
  simp at h2

/-- Claim C8: `and`/`or` evaluate both operand sub-expressions — the
right operand's state effects and failures occur even when the left
value alone decides the result — and only then apply truthiness coercion
(non-zero number, non-empty string, or true is truthy) to combine the
two values into a boolean. -/
theorem C8_and_or_evaluate_both_operands :
    (∀ (f : Nat) (st : InterpState) (l r : Expr),
      evalExpr (f + 1) (.binary l .and r) st =
        match evalExpr f l st with
        | (st1, .error m) => (st1, .error m)
        | (st1, .ok lv) =>
            match evalExpr f r st1 with
            | (st2, .error m) => (st2, .error m)
            | (st2, .ok rv) => (st2, .ok (.bool (isTruthy lv && isTruthy rv)))) ∧
    (∀ (f : Nat) (st : InterpState) (l r : Expr),
      evalExpr (f + 1) (.binary l .or r) st =
        match evalExpr f l st with
        | (st1, .error m) => (st1, .error m)
        | (st1, .ok lv) =>
            match evalExpr f r st1 with
            | (st2, .error m) => (st2, .error m)
            | (st2, .ok rv) => (st2, .ok (.bool (isTruthy lv || isTruthy rv)))) ∧
    (∀ n : Int, isTruthy (.int n) = true ↔ n ≠ 0) ∧
    (∀ q : ℚ, isTruthy (.float q) = true ↔ q ≠ 0) ∧
    (∀ s : String, isTruthy (.str s) = true ↔ ¬s.isEmpty) ∧
    (∀ b : Bool, isTruthy (.bool b) = b) := by
  refine ⟨?_, ?_, ?_, ?_, ?_, fun b => rfl⟩
  · intro f st l r
    rcases h1 : evalExpr f l st with ⟨st1, r1⟩
    cases r1 with
    | error m => simp only [evalExpr, h1]
    | ok lv =>
        rcases h2 : evalExpr f r st1 with ⟨st2, r2⟩
        cases r2 <;> simp only [evalExpr, h1, h2] <;> rfl
  · intro f st l r
    rcases h1 : evalExpr f l st with ⟨st1, r1⟩
    cases r1 with
    | error m => simp only [evalExpr, h1]
    | ok lv =>
        rcases h2 : evalExpr f r st1 with ⟨st2, r2⟩
        cases r2 <;> simp only [evalExpr, h1, h2] <;> rfl
  · intro n; simp [isTruthy]
  · intro q; simp [isTruthy]
  · intro s; simp [isTruthy]

/-- Claim C9, as amended: `callSubstring` behaves exactly as the amended
contract `callSubstringSpec` describes (wrong arity, a non-string first
or non-integer second argument is a fatal failure; a negative or
out-of-range start returns the empty string before the third argument's
type is even checked; a non-integer third argument is a fatal failure
only when start is in range; a negative length yields the empty string;
omitted length yields the remainder), and the two documented examples
hold. -/
theorem C9_substring_contract :
    (∀ args : List RuntimeValue, callSubstring args = callSubstringSpec args) ∧
    callSubstring [.str "hello", .int 10] = .ok (.str "") ∧
    callSubstring [.str "hello", .int 1, .int 3] = .ok (.str "ell") := by
  refine ⟨?_, rfl, rfl⟩
  intro args
  rcases args with _ | ⟨a0, _ | ⟨a1, _ | ⟨a2, _ | ⟨a3, rest⟩⟩⟩⟩
  · rfl
  · rcases a0 <;> rfl
  · rcases a0 <;> rcases a1 <;>
      simp [callSubstring, callSubstringSpec]
  · rcases a0 <;> rcases a1 <;> rcases a2 <;>
      simp [callSubstring, callSubstringSpec]
  · simp [callSubstring, callSubstringSpec]

/-- Claim C9 counterexample: with an out-of-range start,
`substring("hello", 10, "x")` returns the empty string even though its
third argument is a string, not an integer — the claim's "any other
arity or argument type is a fatal failure" fails here. -/
theorem C9_substring_counterexample :
    callSubstring [.str "hello", .int 10, .str "x"] = .ok (.str "") := rfl

/-- Claim C10: the parser strips one leading and one trailing
double-quote character from a STRING token's lexeme whenever the lexeme
is at least two characters long and both are present, and otherwise
preserves the lexeme verbatim; since the lexer stores the unescaped
content without surrounding quotes, the source literal `"\"hi\""` (whose
content is `"hi"`) parses to a string-literal node holding just `hi`. -/
theorem C10_string_literal_quote_stripping :
    (∀ (f : Nat) (s : String) (errs : List String),
      Parser.parsePrimary (f + 1) ⟨[strTok s], 0, errs⟩ =
        (some (.strLit (Parser.stripQuotes s)), ⟨[strTok s], 1, errs⟩)) ∧
    (∀ s : String, 2 ≤ s.length ∧ s.front = '"' ∧ s.back = '"' →
      Parser.stripQuotes s = (s.drop 1).take (s.length - 2)) ∧
    (∀ s : String, ¬(2 ≤ s.length ∧ s.front = '"' ∧ s.back = '"') →
      Parser.stripQuotes s = s) ∧
    ((Lexer.tokenize "\"\\\"hi\\\"\"").1.map Token.lexeme = ["\"hi\"", ""]) ∧
    (Parser.parsePrimary 1 ⟨(Lexer.tokenize "\"\\\"hi\\\"\"").1, 0, []⟩ =
      (some (.strLit "hi"), ⟨(Lexer.tokenize "\"\\\"hi\\\"\"").1, 1, []⟩)) := by
  refine ⟨fun f s errs => rfl, ?_, ?_, by decide, rfl⟩
  · intro s h
    simp [Parser.stripQuotes, h]
  · intro s h
    simp [Parser.stripQuotes, h]

/-- Witness for C2: the mixed pairing int/string is rejected by addition
with the exact message, via the theorem at `1` and `"x"`. -/
theorem C2_binary_arith_no_promotion_witness :
    applyBinary .add (.int 1) (.str "x") = .error "Invalid operands for addition" :=
  C2_binary_arith_no_promotion.2.1 (.int 1) (.str "x")
    (by simp [addPair, numPair])

/-- Witness for C10: the quote-stripping clauses applied at the contents
`"hi"` (stripped) and `hi` (preserved). -/
theorem C10_string_literal_quote_stripping_witness :
    Parser.stripQuotes "\"hi\"" = "hi" ∧ Parser.stripQuotes "hi" = "hi" :=
  ⟨by
    have h := C10_string_literal_quote_stripping.2.1 "\"hi\"" (by decide)
    simpa using h,
   by
    have h := C10_string_literal_quote_stripping.2.2.1 "hi" (by decide)
    simpa using h⟩

end Myndra
